import Mathlib

/-!
Shallow embedding of the HTC exploratory model: `feedstock.py`
(`Feedstock`, `FeedstockManager`), `model.py` (process energy model) and
`pareto.py` (Pareto ranking).  Numeric fields are modelled as exact
rationals; Python exceptions are modelled with `Except String`; in-place
mutation is modelled by returning the updated entity alongside the value.
-/

namespace HTC

/-- Feedstock entity from feedstock.py, holding the identity and physical
state of a named feedstock under a given reaction condition.  Field defaults
follow the constructor defaults of the source. -/
structure Feedstock where
  name : String
  hhv : ℚ := 0
  hhv_std : ℚ := 0
  moisture : ℚ := 0
  moisture_std : ℚ := 0
  moisture_content_target : ℚ := 0.85
  density : ℚ := 0
  water_added : ℚ := 0
  quantity : ℚ := 0
  temp : Int := 190
  time : Int := 1
deriving Repr, DecidableEq

/-- Constructor logic of Feedstock: numeric fields default to 0; the
moisture target is the native moisture when that is already at least 0.85
and 0.85 otherwise; water_added and quantity start at 0. -/
def Feedstock.init (name : String) (hhv hhv_std moisture moisture_std density : ℚ)
    (time temp : Int) : Feedstock :=
  { name := name, hhv := hhv, hhv_std := hhv_std, moisture := moisture,
    moisture_std := moisture_std,
    moisture_content_target := if moisture ≥ 0.85 then moisture else 0.85,
    density := density, water_added := 0, quantity := 0, temp := temp, time := time }

/-- Feedstock.total_weight: quantity plus added water. -/
def Feedstock.total_weight (f : Feedstock) : ℚ := f.quantity + f.water_added

/-- Feedstock.compute_water_added: when the moisture target exceeds the
current moisture, the needed water quantity * (1 - target) / (1 - moisture)
is stored into water_added, moisture is overwritten with the target and the
water amount is returned; otherwise the stored water_added is returned and
the state is untouched. -/
def Feedstock.compute_water_added (f : Feedstock) : ℚ × Feedstock :=
  let ideal_mc := f.moisture_content_target
  if ideal_mc > f.moisture then
    let water_needed := f.quantity * (1 - ideal_mc) / (1 - f.moisture)
    (water_needed, { f with water_added := water_needed, moisture := ideal_mc })
  else
    (f.water_added, f)

/-- Character class [A-Za-z] of the composite-name pattern. -/
def isAlphaChar (c : Char) : Bool :=
  (decide ('A' ≤ c) && decide (c ≤ 'Z')) || (decide ('a' ≤ c) && decide (c ≤ 'z'))

/-- Character class [0-9] of the composite-name pattern. -/
def isDigitChar (c : Char) : Bool := decide ('0' ≤ c) && decide (c ≤ '9')

/-- Left-to-right scan matching the pattern of letters followed by digits:
at a letter, the maximal letter run is taken; when a nonempty digit run
follows, the (letters, digits) pair is emitted and scanning resumes after
the digits; otherwise scanning resumes after the letter run.  The fuel
argument only makes the recursion structural; each step consumes at least
one character, so fuel equal to the input length is always enough. -/
def findallAux : Nat → List Char → List (String × String)
  | 0, _ => []
  | _, [] => []
  | fuel + 1, c :: rest =>
    if isAlphaChar c then
      let alpha := c :: rest.takeWhile isAlphaChar
      let afterAlpha := rest.dropWhile isAlphaChar
      let digits := afterAlpha.takeWhile isDigitChar
      let afterDigits := afterAlpha.dropWhile isDigitChar
      if digits.isEmpty then findallAux fuel afterAlpha
      else (String.mk alpha, String.mk digits) :: findallAux fuel afterDigits
    else findallAux fuel rest

/-- The tokenization re.findall of letter/percent pairs over a name. -/
def findall (s : String) : List (String × String) := findallAux s.data.length s.data

/-- FeedstockManager from feedstock.py: stores all created feedstocks in a
list. -/
structure FeedstockManager where
  feedstocks : List Feedstock
deriving Repr

/-- FeedstockManager.get_feedstock: returns the first stored feedstock whose
name, temp and time all match, and raises the not-found error otherwise. -/
def FeedstockManager.get_feedstock (m : FeedstockManager) (name : String)
    (temp time : Int) : Except String Feedstock :=
  match m.feedstocks.find? (fun f => f.name == name && f.temp == temp && f.time == time) with
  | some f => Except.ok f
  | none => Except.error ("Feedstock with name " ++ name ++ " not found.")

/-- Feedstock.compute_hhv.  The loop body calls
FeedstockManager.get_feedstock with only the component name, but that method
has no defaults and requires name, temp and time, so Python raises TypeError
on the first loop iteration; the computation therefore fails whenever the
name tokenizes into at least one (component, percent) pair.  With no tokens
the loop body never runs and hhv and hhv_std are set to 0 (0 to the power
0.5 is 0). -/
def Feedstock.compute_hhv (f : Feedstock) (_feedstock_manager : FeedstockManager) :
    Except String Feedstock :=
  match findall f.name with
  | [] => Except.ok { f with hhv := 0, hhv_std := 0 }
  | _ :: _ =>
    Except.error ("TypeError: get_feedstock missing 2 required positional arguments")

/-- Python membership test of delete_feedstock, name in self.feedstocks: the
backing collection is a list of Feedstock objects, so the test compares the
name string for equality against each Feedstock object, which is False for
every element under Python default equality between unrelated types. -/
def nameInFeedstockList (_name : String) (feedstocks : List Feedstock) : Bool :=
  feedstocks.any (fun _ => false)

/-- FeedstockManager.delete_feedstock: tests name in self.feedstocks and
deletes on success, raising the not-found error otherwise.  The membership
test never succeeds (see nameInFeedstockList), so the then-branch (which in
Python would itself raise a TypeError, list indices being integers) is
unreachable and the not-found error is always raised. -/
def FeedstockManager.delete_feedstock (m : FeedstockManager) (name : String) :
    Except String FeedstockManager :=
  if nameInFeedstockList name m.feedstocks then
    Except.error ("TypeError: list indices must be integers or slices, not str")
  else
    Except.error ("Feedstock with name " ++ name ++ " not found.")

/-- model.get_feedstock_quantity: sets quantity to 1 / (yield_HC * (1 -
moisture)) and returns it together with the updated feedstock. -/
def get_feedstock_quantity (yield_HC : ℚ) (feedstock : Feedstock) : ℚ × Feedstock :=
  let feedstock_quantity := 1 / (yield_HC * (1 - feedstock.moisture))
  (feedstock_quantity, { feedstock with quantity := feedstock_quantity })

/-- model.get_water_quantity: resolves quantity from the hydrochar yield and
then performs the water-addition step in place. -/
def get_water_quantity (yield_HC : ℚ) (feedstock : Feedstock) : ℚ × Feedstock :=
  let feedstock_quantity := 1 / (yield_HC * (1 - feedstock.moisture))
  let f1 := { feedstock with quantity := feedstock_quantity }
  let ideal_mc := f1.moisture_content_target
  if ideal_mc > f1.moisture then
    let water_needed := f1.quantity * (1 - ideal_mc) / (1 - f1.moisture)
    (water_needed, { f1 with water_added := water_needed, moisture := ideal_mc })
  else
    (f1.water_added, f1)

/-- model.get_co2_emissions.  When moisture differs from the target, the
source first sets quantity via get_feedstock_quantity and then calls
get_water_quantity with the single argument feedstock although that
function requires two positional arguments, so Python raises TypeError
before any water is added and the exception propagates.  When moisture
already equals the target it returns total_weight * (1 - moisture) *
gas_yield. -/
def get_co2_emissions (yield_HC gas_yield : ℚ) (feedstock : Feedstock) :
    Except String (ℚ × Feedstock) :=
  if feedstock.moisture ≠ feedstock.moisture_content_target then
    let _mutated := (get_feedstock_quantity yield_HC feedstock).2
    Except.error ("TypeError: get_water_quantity missing 1 required positional argument")
  else
    Except.ok (feedstock.total_weight * (1 - feedstock.moisture) * gas_yield, feedstock)

/-- model.ramping_heat: heat in MJ needed to bring the reactant mass from
ambient 20 degrees C to the reaction temperature, splitting the total mass
into water and feedstock fractions. -/
def ramping_heat (feedstock : Feedstock) (reaction_temp : ℚ) : ℚ :=
  let total_mass := feedstock.total_weight
  let percent_water := feedstock.water_added / total_mass
  let percent_feedstock := feedstock.quantity / total_mass
  let C_water : ℚ := 4.184e-3
  let C_biomass :=
    1e-6 * (5.340 * (reaction_temp + 273.15) - 299) * (1 - feedstock.moisture_content_target) +
      C_water * feedstock.moisture_content_target
  let water_heat := feedstock.water_added * C_water * (reaction_temp - 20) * percent_water
  let feedstock_heat :=
    feedstock.quantity * C_biomass * (reaction_temp - 20) * percent_feedstock
  water_heat + feedstock_heat

/-- model.get_electricity_rate.  The source computes the power number as
94.043 times the Reynolds number to the power -0.599, a real-valued power;
that map from Reynolds number to power number is kept abstract as the
parameter np_of, while every other step is exact rational arithmetic.  The
density field is overwritten in place with the wet-mixture density and the
mixing power is returned together with the updated feedstock. -/
def get_electricity_rate (np_of : ℚ → ℚ) (feedstock : Feedstock) : ℚ × Feedstock :=
  let N : ℚ := 6.67
  let D : ℚ := 0.057912
  let total_mass := feedstock.total_weight
  let percent_water := feedstock.water_added / total_mass
  let percent_feedstock := feedstock.quantity / total_mass
  let f1 :=
    { feedstock with density := percent_feedstock * feedstock.density + percent_water * 1000 }
  let rho := f1.density
  let mu : ℚ := 1.002e-3
  let R_e := N * D ^ 2 * (rho / mu)
  let N_p := np_of R_e
  (N_p * rho * N ^ 3 * D ^ 5, f1)

/-- Named scenario row from the objective table: the label column followed
by the numeric objective vector. -/
structure Row where
  name : String
  vec : List ℚ
deriving Repr, DecidableEq

/-- Inline dominance test of get_pareto_front under the minimization
convention: every coordinate of other is at most the corresponding
coordinate of point and at least one is strictly below. -/
def dominates (other point : List ℚ) : Bool :=
  ((other.zip point).all fun p => decide (p.1 ≤ p.2)) &&
    ((other.zip point).any fun p => decide (p.1 < p.2))

/-- pareto.get_pareto_front over the objective vectors: a point is kept
unless some row at a different index dominates it.  The source marks the
point and breaks at the first dominating row, which selects exactly the
rows with no dominating other row; its guard on already-removed points
never fires because iteration i only ever writes flag i. -/
def get_pareto_front (values : List (List ℚ)) : List (List ℚ) :=
  (values.enum.filter fun p =>
      ! values.enum.any fun q => (q.1 != p.1) && dominates q.2 p.2).map Prod.snd

/-- pareto.is_dominant: returns False as soon as some other solution is at
most the solution in every coordinate and strictly below in one (the source
comparisons solution greater-or-equal other everywhere and solution
strictly greater somewhere), and True when no other solution does. -/
def is_dominant (solution : List ℚ) (others : List (List ℚ)) : Bool :=
  others.all fun other =>
    ! (((solution.zip other).all fun p => decide (p.2 ≤ p.1)) &&
        ((solution.zip other).any fun p => decide (p.2 < p.1)))

/-- pareto.pareto_sort: each row is tested by is_dominant against all other
rows (its own positional index deleted from the vector table, matching the
zero-based DataFrame index) and the table is split into the dominant and
non-dominant rows in order. -/
def pareto_sort (rows : List Row) : List Row × List Row :=
  let data_points := rows.map Row.vec
  ((rows.enum.filter fun p => is_dominant p.2.vec (data_points.eraseIdx p.1)).map Prod.snd,
   (rows.enum.filter fun p => ! is_dominant p.2.vec (data_points.eraseIdx p.1)).map Prod.snd)

/-- Helper: the strict coordinatewise comparison of a vector with itself is
everywhere false. -/
theorem zip_self_any_lt_false (a : List ℚ) :
    ((a.zip a).any fun p => decide (p.1 < p.2)) = false := by
  induction a with
  | nil => rfl
  | cons x t ih => simp [List.zip_cons_cons, List.any_cons, ih]

/-- Helper: no objective vector dominates itself. -/
theorem dominates_self_false (a : List ℚ) : dominates a a = false := by
  unfold dominates
  rw [zip_self_any_lt_false]
  exact Bool.and_false _

/-- Helper: swapping the zip order flips the coordinatewise non-strict
comparison. -/
theorem zip_all_le_swap : ∀ (s o : List ℚ),
    ((s.zip o).all fun p => decide (p.2 ≤ p.1)) =
      ((o.zip s).all fun p => decide (p.1 ≤ p.2))
  | [], [] => rfl
  | [], _ :: _ => rfl
  | _ :: _, [] => rfl
  | a :: s, b :: o => by
    simp [List.zip_cons_cons, List.all_cons, zip_all_le_swap s o]

/-- Helper: swapping the zip order flips the coordinatewise strict
comparison. -/
theorem zip_any_lt_swap : ∀ (s o : List ℚ),
    ((s.zip o).any fun p => decide (p.2 < p.1)) =
      ((o.zip s).any fun p => decide (p.1 < p.2))
  | [], [] => rfl
  | [], _ :: _ => rfl
  | _ :: _, [] => rfl
  | a :: s, b :: o => by
    simp [List.zip_cons_cons, List.any_cons, zip_any_lt_swap s o]

/-- Helper: a conjunction of negations over a list is the negation of a
disjunction. -/
theorem all_not_eq_not_any {α : Type} (l : List α) (p : α → Bool) :
    (l.all fun x => ! p x) = ! l.any p := by
  induction l with
  | nil => rfl
  | cons a t ih => simp [List.all_cons, List.any_cons, ih]

/-- Helper: is_dominant holds exactly when no listed solution dominates the
given one under the minimization-convention predicate of the front
extraction. -/
theorem is_dominant_eq (v : List ℚ) (others : List (List ℚ)) :
    is_dominant v others = ! others.any fun o => dominates o v := by
  unfold is_dominant
  have hfun :
      (fun other => ! (((v.zip other).all fun p => decide (p.2 ≤ p.1)) &&
          ((v.zip other).any fun p => decide (p.2 < p.1)))) =
        fun other => ! dominates other v := by
    funext other
    rw [dominates, zip_all_le_swap v other, zip_any_lt_swap v other]
  rw [hfun, all_not_eq_not_any]

/-- Helper: an indexed disjunction over positions strictly above the
excluded index ignores the exclusion. -/
theorem enumFrom_any_ne {α : Type} (p : α → Bool) : ∀ (t : List α) (m k : ℕ), k < m →
    (((t.enumFrom m).any fun q => (q.1 != k) && p q.2) = t.any p)
  | [], _, _, _ => rfl
  | a :: t, m, k, h => by
    have hne : (m != k) = true := by
      simp only [bne_iff_ne]
      omega
    simp only [List.enumFrom, List.any_cons, hne, Bool.true_and]
    rw [enumFrom_any_ne p t (m + 1) k (Nat.lt_succ_of_lt h)]

/-- Helper: testing a predicate over a list with one position deleted is the
same as testing it over the enumerated list with that index excluded. -/
theorem eraseIdx_any_eq {α : Type} (p : α → Bool) : ∀ (l : List α) (n i : ℕ),
    ((l.eraseIdx i).any p) = ((l.enumFrom n).any fun q => (q.1 != (n + i)) && p q.2)
  | [], _, _ => rfl
  | a :: t, n, 0 => by
    have h0 : (n != n + 0) = false := by simp
    simp only [List.eraseIdx, List.enumFrom, List.any_cons, h0, Bool.false_and,
      Bool.false_or]
    rw [enumFrom_any_ne p t (n + 1) (n + 0) (by omega)]
  | a :: t, n, i + 1 => by
    have h1 : (n != n + (i + 1)) = true := by
      simp only [bne_iff_ne]
      omega
    simp only [List.eraseIdx, List.enumFrom, List.any_cons, h1, Bool.true_and]
    rw [eraseIdx_any_eq p t (n + 1) i]
    simp only [show (n + 1) + i = n + (i + 1) from by omega]

/-- Helper: is_dominant against a table with one position deleted equals the
index-excluding non-domination test of the front extraction. -/
theorem is_dominant_eraseIdx (values : List (List ℚ)) (i : ℕ) (v : List ℚ) :
    is_dominant v (values.eraseIdx i) =
      ! values.enum.any fun q => (q.1 != i) && dominates q.2 v := by
  rw [is_dominant_eq]
  have h := eraseIdx_any_eq (fun o => dominates o v) values 0 i
  simp only [Nat.zero_add] at h
  rw [List.enum, h]

/-- Helper: enumerating a mapped list maps the values inside the
enumeration. -/
theorem enumFrom_map_vec {α β : Type} (f : α → β) : ∀ (l : List α) (n : ℕ),
    (l.map f).enumFrom n = (l.enumFrom n).map fun q => (q.1, f q.2)
  | [], _ => rfl
  | a :: t, n => by
    simp only [List.map, List.enumFrom]
    rw [enumFrom_map_vec f t (n + 1)]

/-- Helper: filtering a mapped list is mapping the filtered preimages. -/
theorem filter_of_map {α β : Type} (p : β → Bool) (f : α → β) : ∀ l : List α,
    (l.map f).filter p = (l.filter fun a => p (f a)).map f
  | [] => rfl
  | a :: t => by
    by_cases h : p (f a) <;>
      simp [List.map, List.filter_cons, h, filter_of_map p f t]

/-- Helper: deleting a position whose element fails the predicate does not
change an existential test over the list. -/
theorem eraseIdx_any_of_getElem_false {α : Type} (d : α → Bool) :
    ∀ (l : List α) (i : ℕ), (∀ x, l[i]? = some x → d x = false) →
      (l.eraseIdx i).any d = l.any d
  | [], _, _ => rfl
  | a :: t, 0, h => by
    have ha : d a = false := h a (by simp)
    simp [List.eraseIdx, List.any_cons, ha]
  | a :: t, i + 1, h => by
    simp only [List.eraseIdx, List.any_cons]
    rw [eraseIdx_any_of_getElem_false d t i (fun x hx => h x (by simpa using hx))]

/-- Helper: filtering an enumeration by a predicate on the values and then
projecting the values filters the underlying list. -/
theorem enum_filter_snd {α : Type} (B : α → Bool) :
    ∀ (l : List α) (n : ℕ),
      (((l.enumFrom n).filter fun p => B p.2).map Prod.snd) = l.filter B
  | [], _ => rfl
  | a :: t, n => by
    by_cases h : B a <;>
      simp [List.enumFrom, List.filter_cons, h, enum_filter_snd B t (n + 1)]

/-- Helper: because no vector dominates itself, excluding the own index from
the domination test is vacuous, and the Pareto front is the filter of the
table by freedom from domination by any table vector.  Identical vectors
therefore share the same fate: a tie never eliminates its copy. -/
theorem get_pareto_front_eq_filter (values : List (List ℚ)) :
    get_pareto_front values =
      values.filter fun v => ! values.any fun w => dominates w v := by
  unfold get_pareto_front
  have hcongr : ∀ p ∈ values.enum,
      (! (values.enum.any fun q => (q.1 != p.1) && dominates q.2 p.2)) =
        ((fun v => ! values.any fun w => dominates w v) p.2) := by
    intro p hp
    have hget : values[p.1]? = some p.2 := by
      rcases p with ⟨i, v⟩
      exact List.mk_mem_enum_iff_getElem?.mp hp
    have hi : ∀ x, values[p.1]? = some x → dominates x p.2 = false := by
      intro x hx
      rw [hget] at hx
      cases hx
      exact dominates_self_false p.2
    rw [← is_dominant_eraseIdx, is_dominant_eq,
      eraseIdx_any_of_getElem_false (fun o => dominates o p.2) values p.1 hi]
  rw [List.filter_congr hcongr]
  exact enum_filter_snd (fun v => ! values.any fun w => dominates w v) values 0

/-- C7: the dominance predicate is irreflexive and strict: no vector
dominates itself (hence two rows with identical vectors mutually
non-dominate); consequently a row is dropped from the front exactly when
some row of the table strictly dominates its vector, so identical rows
share the same fate and never eliminate each other, and in particular the
two-row table of identical vectors is retained whole. -/
theorem c7_dominates_irreflexive_strict (a : List ℚ) :
    dominates a a = false ∧
    (∀ values : List (List ℚ),
      get_pareto_front values =
        values.filter fun v => ! values.any fun w => dominates w v) ∧
    get_pareto_front [a, a] = [a, a] := by
  have hd : dominates a a = false := dominates_self_false a
  refine ⟨hd, fun values => get_pareto_front_eq_filter values, ?_⟩
  simp [get_pareto_front, List.enum, List.enumFrom, hd]

/-- C1 (code bug witness): on the composite name stdBSG50_rawSRU50, whose
components are both registered for temp 190 and time 1, compute_hhv fails
with the TypeError instead of writing the weighted HHV, because its loop
calls the three-argument registry lookup with only the component name. -/
theorem c1_compute_hhv_raises_typeerror :
    findall "stdBSG50_rawSRU50" = [("stdBSG", "50"), ("rawSRU", "50")] ∧
      Feedstock.compute_hhv { name := "stdBSG50_rawSRU50", temp := 190, time := 1 }
          ⟨[{ name := "stdBSG", hhv := 20, hhv_std := 1, temp := 190, time := 1 },
            { name := "rawSRU", hhv := 15, hhv_std := 2, temp := 190, time := 1 }]⟩ =
        Except.error ("TypeError: get_feedstock missing 2 required positional arguments") :=
  ⟨rfl, rfl⟩

/-- C3: water-addition step on a feedstock with moisture below 1: when the
moisture target exceeds the moisture it stores quantity * (1 - target) /
(1 - moisture) into water_added, overwrites moisture with the target and
returns that amount; when the target is at most the moisture it returns the
stored water_added and leaves the feedstock unchanged. -/
theorem c3_water_addition_step (f : Feedstock) (_h : f.moisture < 1) :
    (f.moisture_content_target > f.moisture →
      f.compute_water_added =
        (f.quantity * (1 - f.moisture_content_target) / (1 - f.moisture),
         { f with
             water_added := f.quantity * (1 - f.moisture_content_target) / (1 - f.moisture),
             moisture := f.moisture_content_target })) ∧
    (f.moisture_content_target ≤ f.moisture →
      f.compute_water_added = (f.water_added, f)) := by
  constructor
  · intro hgt
    unfold Feedstock.compute_water_added
    rw [if_pos hgt]
  · intro hle
    unfold Feedstock.compute_water_added
    rw [if_neg (not_lt.mpr hle)]

/-- Witness for C3: both branches exercised at concrete feedstocks, one with
moisture 0.5 below the target 0.85 and one already at moisture 0.9 above
its target. -/
theorem c3_water_addition_step_witness :
    (Feedstock.compute_water_added { name := "rawSRU", moisture := 0.5, quantity := 2 } =
      (2 * (1 - 0.85) / (1 - 0.5),
       { name := "rawSRU", moisture := 0.85, quantity := 2,
         water_added := 2 * (1 - 0.85) / (1 - 0.5) })) ∧
    (Feedstock.compute_water_added
        { name := "rawDCW", moisture := 0.9, moisture_content_target := 0.9, water_added := 7 } =
      (7, { name := "rawDCW", moisture := 0.9, moisture_content_target := 0.9, water_added := 7 })) :=
  ⟨by
    have h := (c3_water_addition_step
      { name := "rawSRU", moisture := 0.5, quantity := 2 } (by norm_num)).1 (by norm_num)
    simpa using h,
   by
    have h := (c3_water_addition_step
      { name := "rawDCW", moisture := 0.9, moisture_content_target := 0.9, water_added := 7 }
      (by norm_num)).2 (by norm_num)
    simpa using h⟩

/-- C4 (code bug witness): on a feedstock whose moisture 0.5 differs from
its target 0.85, get_co2_emissions fails with the TypeError raised by the
one-argument call of the two-argument get_water_quantity, instead of
performing the water-addition step and returning the emissions. -/
theorem c4_co2_raises_typeerror :
    (({ name := "rawSRU", moisture := 0.5 } : Feedstock).moisture ≠
        ({ name := "rawSRU", moisture := 0.5 } : Feedstock).moisture_content_target) ∧
      get_co2_emissions 0.5 0.1 { name := "rawSRU", moisture := 0.5 } =
        Except.error ("TypeError: get_water_quantity missing 1 required positional argument") :=
  ⟨by norm_num, by
    unfold get_co2_emissions
    rw [if_pos (by norm_num :
      ({ name := "rawSRU", moisture := 0.5 } : Feedstock).moisture ≠
        ({ name := "rawSRU", moisture := 0.5 } : Feedstock).moisture_content_target)]⟩

/-- C6: for a feedstock with positive total reactant mass, the ramp heat is
the water term (water specific heat 4.184e-3 times the temperature rise)
weighted by the water mass fraction, plus the feedstock term with the
biomass specific-heat correlation weighted by the feedstock mass
fraction. -/
theorem c6_ramping_heat_formula (f : Feedstock) (T_R : ℚ)
    (_h : 0 < f.quantity + f.water_added) :
    ramping_heat f T_R =
      f.water_added * 4.184e-3 * (T_R - 20) *
          (f.water_added / (f.quantity + f.water_added)) +
        f.quantity *
            (1e-6 * (5.340 * (T_R + 273.15) - 299) * (1 - f.moisture_content_target) +
              4.184e-3 * f.moisture_content_target) *
            (T_R - 20) * (f.quantity / (f.quantity + f.water_added)) := rfl

/-- Witness for C6: the ramp-heat formula evaluated on a feedstock with
quantity 2 and water 3 at reaction temperature 190. -/
theorem c6_ramping_heat_formula_witness :
    (0 : ℚ) < 2 + 3 ∧
      ramping_heat { name := "rawSRU", quantity := 2, water_added := 3 } 190 =
        3 * 4.184e-3 * (190 - 20) * (3 / (2 + 3)) +
          2 * (1e-6 * (5.340 * (190 + 273.15) - 299) * (1 - 0.85) + 4.184e-3 * 0.85) *
            (190 - 20) * (2 / (2 + 3)) :=
  ⟨by norm_num,
   c6_ramping_heat_formula { name := "rawSRU", quantity := 2, water_added := 3 } 190
     (by norm_num)⟩

/-- C8 (code bug witness): delete_feedstock raises the not-found error even
though a feedstock with the requested name is in the backing list, because
the membership test compares the name string against Feedstock objects. -/
theorem c8_delete_raises_on_present :
    (({ name := "rawSRU" } : Feedstock).name = "rawSRU") ∧
      FeedstockManager.delete_feedstock ⟨[{ name := "rawSRU" }]⟩ "rawSRU" =
        Except.error ("Feedstock with name " ++ "rawSRU" ++ " not found.") :=
  ⟨rfl, rfl⟩

/-- C10: get_electricity_rate overwrites only the density field, setting it
to the feedstock-fraction times the old density plus the water-fraction
times 1000, leaves every other field unchanged, and the returned mixing
power is the power number of the Reynolds number built from the updated
density, times the updated density, times the impeller speed cubed and the
impeller diameter to the fifth. -/
theorem c10_electricity_rate_frame (np_of : ℚ → ℚ) (f : Feedstock)
    (_h : 0 < f.quantity + f.water_added) :
    (get_electricity_rate np_of f).2.density =
        f.quantity / (f.quantity + f.water_added) * f.density +
          f.water_added / (f.quantity + f.water_added) * 1000 ∧
    (get_electricity_rate np_of f).2.name = f.name ∧
    (get_electricity_rate np_of f).2.hhv = f.hhv ∧
    (get_electricity_rate np_of f).2.hhv_std = f.hhv_std ∧
    (get_electricity_rate np_of f).2.moisture = f.moisture ∧
    (get_electricity_rate np_of f).2.moisture_std = f.moisture_std ∧
    (get_electricity_rate np_of f).2.moisture_content_target = f.moisture_content_target ∧
    (get_electricity_rate np_of f).2.quantity = f.quantity ∧
    (get_electricity_rate np_of f).2.water_added = f.water_added ∧
    (get_electricity_rate np_of f).2.temp = f.temp ∧
    (get_electricity_rate np_of f).2.time = f.time ∧
    (get_electricity_rate np_of f).1 =
      np_of (6.67 * 0.057912 ^ 2 *
          ((f.quantity / (f.quantity + f.water_added) * f.density +
              f.water_added / (f.quantity + f.water_added) * 1000) / 1.002e-3)) *
        (f.quantity / (f.quantity + f.water_added) * f.density +
          f.water_added / (f.quantity + f.water_added) * 1000) *
        6.67 ^ 3 * 0.057912 ^ 5 :=
  ⟨rfl, rfl, rfl, rfl, rfl, rfl, rfl, rfl, rfl, rfl, rfl, rfl⟩

/-- Witness for C10: the density overwrite and the frame on the name field
at a concrete feedstock with quantity 2, water 3 and density 400. -/
theorem c10_electricity_rate_frame_witness :
    (0 : ℚ) < 2 + 3 ∧
      (get_electricity_rate (fun r => r)
          { name := "rawSRU", quantity := 2, water_added := 3, density := 400 }).2.density =
        2 / (2 + 3) * 400 + 3 / (2 + 3) * 1000 ∧
      (get_electricity_rate (fun r => r)
          { name := "rawSRU", quantity := 2, water_added := 3, density := 400 }).2.name =
        "rawSRU" :=
  ⟨by norm_num,
   (c10_electricity_rate_frame (fun r => r)
       { name := "rawSRU", quantity := 2, water_added := 3, density := 400 } (by norm_num)).1,
   (c10_electricity_rate_frame (fun r => r)
       { name := "rawSRU", quantity := 2, water_added := 3, density := 400 } (by norm_num)).2.1⟩

/-- C2: the dominant rows produced by pareto_sort carry exactly the
objective vectors returned by get_pareto_front on the same table, in the
same order; the two routines agree on membership in the front. -/
theorem c2_front_matches_sort (rows : List Row) :
    ((pareto_sort rows).1).map Row.vec = get_pareto_front (rows.map Row.vec) := by
  have hmapenum : (rows.map Row.vec).enum = rows.enum.map fun q => (q.1, q.2.vec) := by
    simp only [List.enum]
    exact enumFrom_map_vec Row.vec rows 0
  unfold pareto_sort get_pareto_front
  rw [hmapenum, filter_of_map]
  simp only [List.map_map, Function.comp]
  refine congrArg _ ?_
  refine List.filter_congr ?_
  intro q _
  rw [is_dominant_eraseIdx, hmapenum]

/-- C9: registry lookup fails with the not-found error whenever no stored
feedstock matches the name, temperature and time exactly, and any returned
feedstock is a stored one matching all three exactly. -/
theorem c9_get_feedstock_exact_match (m : FeedstockManager) (name : String)
    (temp time : Int) :
    ((∀ f ∈ m.feedstocks, ¬(f.name = name ∧ f.temp = temp ∧ f.time = time)) →
      m.get_feedstock name temp time =
        Except.error ("Feedstock with name " ++ name ++ " not found.")) ∧
    (∀ f, m.get_feedstock name temp time = Except.ok f →
      f ∈ m.feedstocks ∧ f.name = name ∧ f.temp = temp ∧ f.time = time) := by
  constructor
  · intro h
    unfold FeedstockManager.get_feedstock
    have hnone :
        m.feedstocks.find?
          (fun f => f.name == name && f.temp == temp && f.time == time) = none := by
      rw [List.find?_eq_none]
      intro f hf
      have := h f hf
      simp only [Bool.and_eq_true, beq_iff_eq]
      tauto
    rw [hnone]
  · intro f hf
    unfold FeedstockManager.get_feedstock at hf
    cases hfind : m.feedstocks.find?
        (fun f => f.name == name && f.temp == temp && f.time == time) with
    | none => rw [hfind] at hf; exact absurd hf (by simp)
    | some g =>
      rw [hfind] at hf
      have hg : g = f := by
        have := hf
        simp only [Except.ok.injEq] at this
        exact this
      have hmem := List.mem_of_find?_eq_some hfind
      have hpred := List.find?_some hfind
      simp only [Bool.and_eq_true, beq_iff_eq] at hpred
      subst hg
      exact ⟨hmem, hpred.1.1, hpred.1.2, hpred.2⟩

/-- Witness for C9: the lookup error on an empty registry and the exact
match on a one-element registry. -/
theorem c9_get_feedstock_exact_match_witness :
    (FeedstockManager.get_feedstock ⟨[]⟩ "rawSRU" 190 1 =
      Except.error ("Feedstock with name " ++ "rawSRU" ++ " not found.")) ∧
    (({ name := "rawDCW" } : Feedstock) ∈
        FeedstockManager.feedstocks ⟨[{ name := "rawDCW" }]⟩ ∧
      ({ name := "rawDCW" } : Feedstock).name = "rawDCW" ∧
      ({ name := "rawDCW" } : Feedstock).temp = 190 ∧
      ({ name := "rawDCW" } : Feedstock).time = 1) :=
  ⟨(c9_get_feedstock_exact_match ⟨[]⟩ "rawSRU" 190 1).1 (by simp),
   (c9_get_feedstock_exact_match ⟨[{ name := "rawDCW" }]⟩ "rawDCW" 190 1).2
     { name := "rawDCW" } rfl⟩

end HTC
